import Mathlib

/-!
Verification development for the image-classification helper functions in
`src/main.py`.  Each Python function is shallowly embedded as a Lean
definition: label arrays become `List ℕ`, floating-point tensors become
rational-valued functions, plotting calls become records of the data handed
to the plotting backend, and Python exceptions become `Except PyErr`.
-/

namespace TfHelper

/-- Python exceptions relevant to this module.  `typeError` in particular is
what CPython raises for `len` applied to a scalar and for indexing a list
with a non-integer. -/
inductive PyErr
  | typeError
  | indexError
  | valueError
deriving DecidableEq, Repr

/-! ## Module structure: the nine top-level functions of main.py -/

/-- The nine functions defined in `src/main.py`, in source order. -/
inductive FuncName
  | loadAndPrepImage
  | makeConfusionMatrix
  | predAndPlot
  | createTensorboardCallback
  | plotLossCurves
  | compareHistory
  | unzipData
  | walkThroughDir
  | calculateResults
deriving DecidableEq, Repr, Fintype

/-- Direct call graph between functions of the repository, transcribed from
the bodies in `src/main.py`: the only intra-repository call is
`pred_and_plot` invoking `load_and_prep_image(filename)` at line 69.  Every
other call in every body targets an external library
(tensorflow, sklearn, mlxtend, matplotlib, zipfile, os, datetime). -/
def calls : FuncName → FuncName → Bool
  | .predAndPlot, .loadAndPrepImage => true
  | _, _ => false

/-- Transcribed from `src/main.py`: the file contains no `try`/`except`
block, no retry loop and no error-recovery code in any of the nine
function bodies. -/
def catchesErrors : FuncName → Bool := fun _ => false

/-! ## pred_and_plot, lines 68-82: class selection from the prediction

The prediction returned by `model.predict` is a 2-d float array, embedded
as `List (List ℚ)` in row-major order.  Lines 73-78 select a class name:

* `if len(pred[0]) > 1:` take `class_names[pred.argmax()]`;
* `elif len(pred[0][0]) > 1:` — evaluating this condition applies `len`
  to the scalar `pred[0][0]`, which raises `TypeError` in Python, so the
  `elif` body and the `else` branch below it can never run;
* `else:` (the intended binary branch, `class_names[int(tf.round(pred)[0][0])]`)
  is therefore dead code.
-/

/-- Index of the first maximum of a flat array, as `numpy.argmax` computes
it over the flattened prediction. -/
def argmaxIdx (l : List ℚ) : ℕ :=
  (l.enum.foldl (fun best q => if best.2 < q.2 then q else best)
    (0, l.headD 0)).1

/-- Python list indexing for a non-negative index: out of range raises
`IndexError`. -/
def pyIndex (l : List String) (i : ℕ) : Except PyErr String :=
  if h : i < l.length then Except.ok (l.get ⟨i, h⟩) else Except.error PyErr.indexError

/-- Lines 73-78 of `pred_and_plot`.  `pred` is the prediction array,
`class_names` the list of class labels.  An empty `pred` makes `pred[0]`
raise `IndexError`; a first row of length `> 1` takes the argmax branch; a
first row of length 1 reaches the `elif`, whose condition applies `len` to
the scalar `pred[0][0]` and raises `TypeError`; an empty first row makes
`pred[0][0]` raise `IndexError`. -/
def pred_and_plot_branch (pred : List (List ℚ)) (class_names : List String) :
    Except PyErr String :=
  match pred with
  | [] => Except.error PyErr.indexError
  | row :: _ =>
    if row.length > 1 then
      pyIndex class_names (argmaxIdx pred.flatten)
    else
      match row with
      | [] => Except.error PyErr.indexError
      | _ :: _ => Except.error PyErr.typeError

/-! ## unzip_data, lines 150-153 -/

/-- Observable events of `unzip_data`: the handle is opened, the archive is
extracted, the handle is closed, or a statement raises. -/
inductive ZEvent
  | opened
  | extracted
  | closed
  | raised
deriving DecidableEq, Repr

/-- Trace of `unzip_data(filename)` as a function of whether
`zip_ref.extractall()` succeeds.  The body is three sequential statements
(`open`, `extractall`, `close`) with no `try`/`finally` and no context
manager, so an exception raised by `extractall` aborts the function before
`zip_ref.close()` runs. -/
def unzip_data_trace (extractall_ok : Bool) : List ZEvent :=
  ZEvent.opened ::
    (if extractall_ok then [ZEvent.extracted, ZEvent.closed] else [ZEvent.raised])

/-! ## compare_history, lines 117-147 -/

/-- A Keras training history: the four per-epoch metric sequences stored in
`history.history`. -/
structure History where
  accuracy : List ℚ
  loss : List ℚ
  val_accuracy : List ℚ
  val_loss : List ℚ

/-- The data `compare_history` hands to the plotting backend: the four
concatenated sequences and the x-position of the fine-tuning marker line
(`initial_epochs - 1`). -/
structure ComparePlotData where
  total_acc : List ℚ
  total_loss : List ℚ
  total_val_acc : List ℚ
  total_val_loss : List ℚ
  fine_tune_marker : ℤ

/-- Lines 117-147: Python list `+` on the history lists is concatenation.
The Python default for `initial_epochs` is 5. -/
def compare_history (original_history new_history : History)
    (initial_epochs : ℕ) : ComparePlotData :=
  { total_acc := original_history.accuracy ++ new_history.accuracy
    total_loss := original_history.loss ++ new_history.loss
    total_val_acc := original_history.val_accuracy ++ new_history.val_accuracy
    total_val_loss := original_history.val_loss ++ new_history.val_loss
    fine_tune_marker := (initial_epochs : ℤ) - 1 }

/-! ## make_confusion_matrix, lines 26-65 -/

/-- Sorted list of the distinct labels occurring in `y_true` or `y_pred`,
as `sklearn.metrics.confusion_matrix` computes it (`np.unique` of the
union). -/
def cmLabels (y_true y_pred : List ℕ) : List ℕ :=
  (List.range ((y_true ++ y_pred).foldr max 0 + 1)).filter
    (fun c => c ∈ y_true ++ y_pred)

/-- The sklearn confusion matrix: entry `(i, j)` counts the samples whose
true label is the `i`-th and whose predicted label is the `j`-th element of
`cmLabels`. -/
def confusionMatrix (y_true y_pred : List ℕ) : List (List ℕ) :=
  (cmLabels y_true y_pred).map fun a =>
    (cmLabels y_true y_pred).map fun b =>
      (y_true.zip y_pred).countP fun q => q.1 == a && q.2 == b

/-- Line 50: `cm.astype("float") / cm.sum(axis=1)[:, np.newaxis]`, the
row-normalised matrix.  With a zero row numpy emits a division warning and
produces non-finite entries but does not raise; in the rational embedding
division by zero yields 0. -/
def cmNorm (cm : List (List ℕ)) : List (List ℚ) :=
  cm.map fun row => row.map fun v => (v : ℚ) / (row.sum : ℚ)

/-- The figure description handed to `mlxtend.plotting.plot_confusion_matrix`
plus the axis labels and title set afterwards (lines 52-61). -/
structure ConfMatFig where
  conf_mat : List (List ℕ)
  show_absolute : Bool
  show_normed : Bool
  has_colorbar : Bool
  class_names : Option (List String)
  figsize : ℕ × ℕ
  xlabel : String
  ylabel : String
  fig_title : String
  label_text_size : ℕ

/-- Observable output of `make_confusion_matrix`: the figure, whether
`plt.show()` ran, and the files written. -/
structure ConfMatOutput where
  fig : ConfMatFig
  displayed : Bool
  files_written : List String

set_option linter.unusedVariables false in
/-- Lines 26-65.  Python defaults: `classes=None`, `figsize=(10, 10)`,
`text_size=18`, `norm=True`, `savefig=False`.  The local `cm_norm`
(line 50) is computed and then never referenced again; only `cm` and the
`norm` flag reach the plotting call, and `fig.savefig("confusion_matrix.png")`
runs exactly when `savefig` is truthy. -/
def make_confusion_matrix (y_true y_pred : List ℕ) (classes : Option (List String))
    (figsize : ℕ × ℕ) (text_size : ℕ) (norm : Bool) (savefig : Bool) :
    ConfMatOutput :=
  let cm := confusionMatrix y_true y_pred
  let cm_norm := cmNorm cm
  { fig :=
      { conf_mat := cm
        show_absolute := true
        show_normed := norm
        has_colorbar := true
        class_names := classes
        figsize := figsize
        xlabel := "Predictions"
        ylabel := "Actuals"
        fig_title := "Confusion Matrix"
        label_text_size := text_size }
    displayed := true
    files_written := if savefig then ["confusion_matrix.png"] else [] }

/-- Modelled from the claim under comparison: `make_confusion_matrix` with
the dead line 50 (`cm_norm = ...`) removed and everything else unchanged. -/
def make_confusion_matrix_no_norm (y_true y_pred : List ℕ)
    (classes : Option (List String)) (figsize : ℕ × ℕ) (text_size : ℕ)
    (norm : Bool) (savefig : Bool) : ConfMatOutput :=
  let cm := confusionMatrix y_true y_pred
  { fig :=
      { conf_mat := cm
        show_absolute := true
        show_normed := norm
        has_colorbar := true
        class_names := classes
        figsize := figsize
        xlabel := "Predictions"
        ylabel := "Actuals"
        fig_title := "Confusion Matrix"
        label_text_size := text_size }
    displayed := true
    files_written := if savefig then ["confusion_matrix.png"] else [] }

/-! ## calculate_results, lines 161-170

Embedding of `sklearn.metrics.accuracy_score` and
`sklearn.metrics.precision_recall_fscore_support(average="weighted")` over
integer label lists.  sklearn first checks that the two arrays have the
same length and raises `ValueError` otherwise; the weighted average runs
over the sorted distinct labels of the union, weights each per-class metric
by its support (the count of the class in `y_true`), divides by the total
support `len(y_true)`, and maps a zero denominator in a per-class metric to
0 (the `zero_division` default).  On two empty arrays `accuracy_score`
takes `np.average` of an empty score array, which is nan (a warning, not an
exception), while the three weighted metrics fall back to the
`zero_division` value 0 because no label is present.
-/

/-- A Python float as it appears in the returned metrics: either a finite
value or nan. -/
inductive PyFloat
  | num (q : ℚ)
  | nan
deriving DecidableEq, Repr

/-- Multiplication of a metric float by a finite constant; nan is
absorbing. -/
def PyFloat.mul (a : PyFloat) (q : ℚ) : PyFloat :=
  match a with
  | .num v => .num (v * q)
  | .nan => .nan

/-- Number of positions where the two label lists agree. -/
def matchCount (y_true y_pred : List ℕ) : ℕ :=
  (y_true.zip y_pred).countP fun q => q.1 == q.2

/-- The finite accuracy value on non-empty input: fraction of agreeing
positions. -/
def accuracyQ (y_true y_pred : List ℕ) : ℚ :=
  (matchCount y_true y_pred : ℚ) / (y_true.length : ℚ)

/-- `sklearn.metrics.accuracy_score`: fraction of agreeing positions, and
nan on empty input (`np.average` of an empty array). -/
def accuracy_score (y_true y_pred : List ℕ) : PyFloat :=
  if y_true.length = 0 then PyFloat.nan
  else PyFloat.num (accuracyQ y_true y_pred)

/-- True positives of class `c`. -/
def truePos (y_true y_pred : List ℕ) (c : ℕ) : ℕ :=
  (y_true.zip y_pred).countP fun q => q.1 == c && q.2 == c

/-- Support of class `c`: its number of occurrences in `y_true`. -/
def support (y_true : List ℕ) (c : ℕ) : ℕ := y_true.count c

/-- Number of predictions of class `c`. -/
def predCount (y_pred : List ℕ) (c : ℕ) : ℕ := y_pred.count c

/-- Per-class precision, 0 when the class is never predicted. -/
def precisionOf (y_true y_pred : List ℕ) (c : ℕ) : ℚ :=
  if predCount y_pred c = 0 then 0
  else (truePos y_true y_pred c : ℚ) / (predCount y_pred c : ℚ)

/-- Per-class recall, 0 when the class has no support. -/
def recallOf (y_true y_pred : List ℕ) (c : ℕ) : ℚ :=
  if support y_true c = 0 then 0
  else (truePos y_true y_pred c : ℚ) / (support y_true c : ℚ)

/-- Per-class F1, the harmonic mean of precision and recall, 0 when both
vanish. -/
def f1Of (y_true y_pred : List ℕ) (c : ℕ) : ℚ :=
  if precisionOf y_true y_pred c + recallOf y_true y_pred c = 0 then 0
  else 2 * precisionOf y_true y_pred c * recallOf y_true y_pred c /
    (precisionOf y_true y_pred c + recallOf y_true y_pred c)

/-- The distinct labels of the union of the two arrays. -/
def labelSet (y_true y_pred : List ℕ) : Finset ℕ := (y_true ++ y_pred).toFinset

/-- Support-weighted average of a per-class metric, divided by the total
support `len(y_true)`. -/
def weightedAvg (y_true y_pred : List ℕ) (metric : ℕ → ℚ) : ℚ :=
  (∑ c in labelSet y_true y_pred, (support y_true c : ℚ) * metric c) /
    (y_true.length : ℚ)

/-- Lines 161-170: the returned dict, with `accuracy` scaled by 100 and the
three weighted metrics unscaled, keyed in the literal order of line 165.
Mismatched lengths make sklearn raise `ValueError`.  On empty input the
weighted metrics are 0 (the `zero_division` fallback over an empty label
set, which the rational embedding of `weightedAvg` also yields) and the
accuracy is nan. -/
def calculate_results (y_true y_pred : List ℕ) :
    Except PyErr (List (String × PyFloat)) :=
  if y_true.length = y_pred.length then
    Except.ok
      [("accuracy", (accuracy_score y_true y_pred).mul 100),
       ("precision", PyFloat.num (weightedAvg y_true y_pred (precisionOf y_true y_pred))),
       ("recall", PyFloat.num (weightedAvg y_true y_pred (recallOf y_true y_pred))),
       ("f1", PyFloat.num (weightedAvg y_true y_pred (f1Of y_true y_pred)))]
  else Except.error PyErr.valueError

/-! ## load_and_prep_image, lines 13-23

`tf.io.read_file` + `tf.image.decode_jpeg(img)` decode a JPEG file.  With
the default `channels=0`, the TF decoder outputs the channel count of the
file capped at 3: 1 for a grayscale file and 3 for a color file — a
4-component (CMYK) file is converted scanline by scanline to RGB, so the
decoder never outputs 4 channels.  The decoded uint8 grid is embedded as a
rational-valued function of (row, column, channel) with byte values below
256.  `tf.image.resize(img, [s, s])` is bilinear interpolation with
half-pixel centers (the TF2 default), embedded exactly: each output sample
is a convex combination of four clamped input samples.
-/

/-- A valid JPEG file as seen by the decoder: dimensions, the channel count
of the decoded grid (1 for a grayscale file, 3 for a color file, CMYK
included after its conversion to RGB), and the byte-valued decoded
samples. -/
structure Jpeg where
  height : ℕ
  width : ℕ
  channels : ℕ
  pix : ℕ → ℕ → ℕ → ℕ

/-- Validity of a JPEG: positive dimensions, a channel count the decoder
can output (1 for grayscale, 3 for color; never 4, since CMYK is converted
to RGB), and byte-sized samples. -/
def Jpeg.valid (j : Jpeg) : Prop :=
  0 < j.height ∧ 0 < j.width ∧ (j.channels = 1 ∨ j.channels = 3) ∧
    ∀ y < j.height, ∀ x < j.width, ∀ c < j.channels, j.pix y x c < 256

instance (j : Jpeg) : Decidable j.valid := by
  unfold Jpeg.valid; infer_instance

/-- A float tensor of rank 3, as produced by `tf.image.resize`. -/
structure Tensor3 where
  height : ℕ
  width : ℕ
  channels : ℕ
  val : ℕ → ℕ → ℕ → ℚ

/-- `tf.image.decode_jpeg` with the default `channels=0`: the decoded pixel
grid (1 or 3 channels, per `Jpeg.valid`) as a float-convertible tensor;
reads outside the grid are not performed by any consumer and are mapped
to 0. -/
def decode_jpeg (j : Jpeg) : Tensor3 :=
  { height := j.height
    width := j.width
    channels := j.channels
    val := fun y x c =>
      if y < j.height ∧ x < j.width ∧ c < j.channels then (j.pix y x c : ℚ) else 0 }

/-- Interpolation data for one output coordinate, as the TF bilinear kernel
computes it with half-pixel centers: source position
`(i + 1/2) * inSize / outSize - 1/2`, floor and ceiling clamped into the
valid index range, and the fractional weight of the upper neighbour. -/
structure InterpW where
  lower : ℕ
  upper : ℕ
  lerp : ℚ

/-- Source position of output index `i` with half-pixel centers:
`(i + 1/2) * inSize / outSize - 1/2`. -/
def srcCenter (inSize outSize : ℕ) (i : ℕ) : ℚ :=
  ((i : ℚ) + 1 / 2) * ((inSize : ℚ) / (outSize : ℚ)) - 1 / 2

/-- Interpolation weights of output index `i` for resizing `inSize` samples
to `outSize` samples. -/
def interpW (inSize outSize : ℕ) (i : ℕ) : InterpW :=
  { lower := (max ⌊srcCenter inSize outSize i⌋ 0).toNat
    upper := (min ⌈srcCenter inSize outSize i⌉ ((inSize : ℤ) - 1)).toNat
    lerp := srcCenter inSize outSize i - (⌊srcCenter inSize outSize i⌋ : ℚ) }

/-- One bilinear sample: the horizontal interpolations of the two
neighbouring rows, interpolated vertically. -/
def bilinearAt (t : Tensor3) (yw xw : InterpW) (c : ℕ) : ℚ :=
  (1 - yw.lerp) *
      ((1 - xw.lerp) * t.val yw.lower xw.lower c +
        xw.lerp * t.val yw.lower xw.upper c) +
    yw.lerp *
      ((1 - xw.lerp) * t.val yw.upper xw.lower c +
        xw.lerp * t.val yw.upper xw.upper c)

/-- `tf.image.resize(t, [outH, outW])` with the default bilinear method:
each output sample interpolates the four neighbouring input samples. -/
def resize_bilinear (t : Tensor3) (outH outW : ℕ) : Tensor3 :=
  { height := outH
    width := outW
    channels := t.channels
    val := fun y x c =>
      bilinearAt t (interpW t.height outH y) (interpW t.width outW x) c }

/-- Lines 13-23: decode, resize to `img_shape × img_shape`, and divide by
255 when `normalize` is set.  Python defaults: `img_shape=224`,
`normalize=True`. -/
def load_and_prep_image (j : Jpeg) (img_shape : ℕ) (normalize : Bool) : Tensor3 :=
  let img := resize_bilinear (decode_jpeg j) img_shape img_shape
  if normalize then
    { height := img.height
      width := img.width
      channels := img.channels
      val := fun y x c => img.val y x c / 255 }
  else img

/-! ## Lemmas about the embedded sklearn metrics -/

/-- Predicates over the diagonal pairing of a list with itself reduce to
predicates over elements. -/
theorem zip_self_countP (l : List ℕ) (p : ℕ × ℕ → Bool) :
    (l.zip l).countP p = l.countP fun a => p (a, a) := by
  induction l with
  | nil => rfl
  | cons a t ih => simp [List.zip_cons_cons, List.countP_cons, ih]

/-- On identical label lists every position agrees. -/
theorem matchCount_self (l : List ℕ) : matchCount l l = l.length := by
  rw [matchCount, zip_self_countP]
  simp

/-- On identical label lists the true positives of a class are its count. -/
theorem truePos_self (l : List ℕ) (c : ℕ) : truePos l l c = l.count c := by
  rw [truePos, zip_self_countP]
  simp [List.count]

/-- The label set of identical lists is the set of labels of the list. -/
theorem labelSet_self (l : List ℕ) : labelSet l l = l.toFinset := by
  simp [labelSet]

/-- The finite accuracy of a non-empty list against itself is 1. -/
theorem accuracyQ_self (l : List ℕ) (hl : l ≠ []) : accuracyQ l l = 1 := by
  rw [accuracyQ, matchCount_self]
  refine div_self ?_
  exact_mod_cast (List.length_pos.mpr hl).ne'

/-- Accuracy of a non-empty list against itself is the finite value 1. -/
theorem accuracy_score_self (l : List ℕ) (hl : l ≠ []) :
    accuracy_score l l = PyFloat.num 1 := by
  have h0 : ¬l.length = 0 := fun h => hl (List.length_eq_zero.mp h)
  rw [accuracy_score, if_neg h0, accuracyQ_self l hl]

/-- Per-class precision on identical lists is 1 for every present class. -/
theorem precisionOf_self (l : List ℕ) (c : ℕ) (hc : c ∈ l) : precisionOf l l c = 1 := by
  have hcount : l.count c ≠ 0 := (List.count_pos_iff.mpr hc).ne'
  rw [precisionOf, truePos_self, predCount, if_neg hcount]
  refine div_self ?_
  exact_mod_cast hcount

/-- Per-class recall on identical lists is 1 for every present class. -/
theorem recallOf_self (l : List ℕ) (c : ℕ) (hc : c ∈ l) : recallOf l l c = 1 := by
  have hcount : l.count c ≠ 0 := (List.count_pos_iff.mpr hc).ne'
  rw [recallOf, truePos_self, support, if_neg hcount]
  refine div_self ?_
  exact_mod_cast hcount

/-- Per-class F1 on identical lists is 1 for every present class. -/
theorem f1Of_self (l : List ℕ) (c : ℕ) (hc : c ∈ l) : f1Of l l c = 1 := by
  rw [f1Of, precisionOf_self l c hc, recallOf_self l c hc]
  norm_num

/-- The supports over the label set sum to the sample count. -/
theorem support_sum (y_true y_pred : List ℕ) :
    ∑ c in labelSet y_true y_pred, support y_true c = y_true.length := by
  rw [labelSet, ← List.sum_toFinset_count_eq_length y_true]
  refine (Finset.sum_subset ?_ ?_).symm
  · intro c hc
    rw [List.mem_toFinset] at hc ⊢
    exact List.mem_append_left _ hc
  · intro c _ hcn
    rw [List.mem_toFinset] at hcn
    exact List.count_eq_zero.mpr hcn

/-- A weighted average of a metric that is 1 on every present class equals 1
for a non-empty list paired with itself. -/
theorem weightedAvg_self_one (l : List ℕ) (hl : l ≠ []) (m : ℕ → ℚ)
    (hm : ∀ c ∈ l.toFinset, m c = 1) : weightedAvg l l m = 1 := by
  have hsum : ∑ c in labelSet l l, (support l c : ℚ) * m c = (l.length : ℚ) := by
    rw [labelSet_self]
    calc ∑ c in l.toFinset, (support l c : ℚ) * m c
        = ∑ c in l.toFinset, (support l c : ℚ) :=
          Finset.sum_congr rfl fun c hc => by rw [hm c hc, mul_one]
      _ = ((∑ c in l.toFinset, support l c : ℕ) : ℚ) := (Nat.cast_sum _ _).symm
      _ = (l.length : ℚ) := by
          norm_cast
          exact List.sum_toFinset_count_eq_length l
  rw [weightedAvg, hsum]
  refine div_self ?_
  exact_mod_cast (List.length_pos.mpr hl).ne'

/-- The number of agreeing positions is at most the sample count. -/
theorem matchCount_le (y_true y_pred : List ℕ) : matchCount y_true y_pred ≤ y_true.length :=
  le_trans (List.countP_le_length _)
    (le_trans (le_of_eq (List.length_zip _ _)) (min_le_left _ _))

/-- The finite accuracy value lies in the unit interval. -/
theorem accuracyQ_bounds (y_true y_pred : List ℕ) (hne : y_true ≠ []) :
    0 ≤ accuracyQ y_true y_pred ∧ accuracyQ y_true y_pred ≤ 1 := by
  have hN : (0 : ℚ) < y_true.length := by exact_mod_cast List.length_pos.mpr hne
  constructor
  · exact div_nonneg (Nat.cast_nonneg _) hN.le
  · rw [accuracyQ, div_le_one hN]
    exact_mod_cast matchCount_le y_true y_pred

/-- True positives of a class never exceed its prediction count. -/
theorem truePos_le_predCount (y_true y_pred : List ℕ)
    (h : y_true.length = y_pred.length) (c : ℕ) :
    truePos y_true y_pred c ≤ predCount y_pred c := by
  have h1 : truePos y_true y_pred c ≤
      (y_true.zip y_pred).countP fun q => q.2 == c := by
    refine List.countP_mono_left fun q _ hq => ?_
    exact (Bool.and_eq_true _ _ |>.mp hq).2
  have hm : (y_true.zip y_pred).map Prod.snd = y_pred :=
    List.map_snd_zip y_true y_pred (le_of_eq h.symm)
  have h2 : ((y_true.zip y_pred).map Prod.snd).countP (fun a => a == c) =
      (y_true.zip y_pred).countP fun q => q.2 == c := List.countP_map _ _ _
  rw [hm] at h2
  exact le_trans h1 (le_of_eq h2.symm)

/-- True positives of a class never exceed its support. -/
theorem truePos_le_support (y_true y_pred : List ℕ)
    (h : y_true.length = y_pred.length) (c : ℕ) :
    truePos y_true y_pred c ≤ support y_true c := by
  have h1 : truePos y_true y_pred c ≤
      (y_true.zip y_pred).countP fun q => q.1 == c := by
    refine List.countP_mono_left fun q _ hq => ?_
    exact (Bool.and_eq_true _ _ |>.mp hq).1
  have hm : (y_true.zip y_pred).map Prod.fst = y_true :=
    List.map_fst_zip y_true y_pred (le_of_eq h)
  have h2 : ((y_true.zip y_pred).map Prod.fst).countP (fun a => a == c) =
      (y_true.zip y_pred).countP fun q => q.1 == c := List.countP_map _ _ _
  rw [hm] at h2
  exact le_trans h1 (le_of_eq h2.symm)

/-- Per-class precision lies in the unit interval. -/
theorem precisionOf_bounds (y_true y_pred : List ℕ)
    (h : y_true.length = y_pred.length) (c : ℕ) :
    0 ≤ precisionOf y_true y_pred c ∧ precisionOf y_true y_pred c ≤ 1 := by
  rw [precisionOf]
  split
  · norm_num
  · rename_i hz
    have hpos : (0 : ℚ) < predCount y_pred c := by
      exact_mod_cast Nat.pos_of_ne_zero hz
    refine ⟨div_nonneg (Nat.cast_nonneg _) hpos.le, ?_⟩
    rw [div_le_one hpos]
    exact_mod_cast truePos_le_predCount y_true y_pred h c

/-- Per-class recall lies in the unit interval. -/
theorem recallOf_bounds (y_true y_pred : List ℕ)
    (h : y_true.length = y_pred.length) (c : ℕ) :
    0 ≤ recallOf y_true y_pred c ∧ recallOf y_true y_pred c ≤ 1 := by
  rw [recallOf]
  split
  · norm_num
  · rename_i hz
    have hpos : (0 : ℚ) < support y_true c := by
      exact_mod_cast Nat.pos_of_ne_zero hz
    refine ⟨div_nonneg (Nat.cast_nonneg _) hpos.le, ?_⟩
    rw [div_le_one hpos]
    exact_mod_cast truePos_le_support y_true y_pred h c

/-- Per-class F1 lies in the unit interval. -/
theorem f1Of_bounds (y_true y_pred : List ℕ)
    (h : y_true.length = y_pred.length) (c : ℕ) :
    0 ≤ f1Of y_true y_pred c ∧ f1Of y_true y_pred c ≤ 1 := by
  obtain ⟨hp0, hp1⟩ := precisionOf_bounds y_true y_pred h c
  obtain ⟨hr0, hr1⟩ := recallOf_bounds y_true y_pred h c
  rw [f1Of]
  split
  · norm_num
  · rename_i hz
    have hsum : 0 < precisionOf y_true y_pred c + recallOf y_true y_pred c :=
      lt_of_le_of_ne (by linarith) (Ne.symm hz)
    constructor
    · apply div_nonneg _ hsum.le
      positivity
    · rw [div_le_one hsum]
      nlinarith

/-- A support-weighted average of a metric with values in the unit interval
lies in the unit interval. -/
theorem weightedAvg_bounds (y_true y_pred : List ℕ) (hne : y_true ≠ [])
    (m : ℕ → ℚ) (hm : ∀ c, 0 ≤ m c ∧ m c ≤ 1) :
    0 ≤ weightedAvg y_true y_pred m ∧ weightedAvg y_true y_pred m ≤ 1 := by
  have hN : (0 : ℚ) < y_true.length := by exact_mod_cast List.length_pos.mpr hne
  constructor
  · refine div_nonneg ?_ hN.le
    refine Finset.sum_nonneg fun c _ => mul_nonneg (Nat.cast_nonneg _) (hm c).1
  · rw [weightedAvg, div_le_one hN]
    calc ∑ c in labelSet y_true y_pred, (support y_true c : ℚ) * m c
        ≤ ∑ c in labelSet y_true y_pred, (support y_true c : ℚ) :=
          Finset.sum_le_sum fun c _ =>
            mul_le_of_le_one_right (Nat.cast_nonneg _) (hm c).2
      _ = (y_true.length : ℚ) := by
          rw [← Nat.cast_sum]
          exact_mod_cast congrArg Nat.cast (support_sum y_true y_pred)

/-! ## Lemmas about the embedded image pipeline -/

/-- A convex combination stays inside an interval containing its endpoints. -/
theorem convex_bound {a b t lo hi : ℚ} (ht0 : 0 ≤ t) (ht1 : t ≤ 1)
    (ha0 : lo ≤ a) (ha1 : a ≤ hi) (hb0 : lo ≤ b) (hb1 : b ≤ hi) :
    lo ≤ (1 - t) * a + t * b ∧ (1 - t) * a + t * b ≤ hi := by
  constructor <;> nlinarith

/-- The fractional interpolation weight lies in [0, 1]. -/
theorem interpW_lerp_bounds (inSize outSize i : ℕ) :
    0 ≤ (interpW inSize outSize i).lerp ∧ (interpW inSize outSize i).lerp ≤ 1 := by
  show 0 ≤ srcCenter inSize outSize i - (⌊srcCenter inSize outSize i⌋ : ℚ) ∧
    srcCenter inSize outSize i - (⌊srcCenter inSize outSize i⌋ : ℚ) ≤ 1
  constructor
  · have := Int.floor_le (srcCenter inSize outSize i)
    linarith
  · have := Int.lt_floor_add_one (srcCenter inSize outSize i)
    push_cast at this
    linarith

/-- Every sample of a decoded valid JPEG is a byte value. -/
theorem decode_jpeg_val_bounds (j : Jpeg) (hv : j.valid) :
    ∀ y x c, 0 ≤ (decode_jpeg j).val y x c ∧ (decode_jpeg j).val y x c ≤ 255 := by
  intro y x c
  show 0 ≤ (if y < j.height ∧ x < j.width ∧ c < j.channels
        then (j.pix y x c : ℚ) else 0) ∧
      (if y < j.height ∧ x < j.width ∧ c < j.channels
        then (j.pix y x c : ℚ) else 0) ≤ 255
  split
  · rename_i hin
    have hb := hv.2.2.2 y hin.1 x hin.2.1 c hin.2.2
    constructor
    · positivity
    · exact_mod_cast Nat.lt_succ_iff.mp hb
  · norm_num

/-- A bilinear sample of a tensor with byte-bounded samples is byte-bounded. -/
theorem bilinearAt_bounds (t : Tensor3) (yw xw : InterpW)
    (hy0 : 0 ≤ yw.lerp) (hy1 : yw.lerp ≤ 1) (hx0 : 0 ≤ xw.lerp) (hx1 : xw.lerp ≤ 1)
    (hb : ∀ y x c, 0 ≤ t.val y x c ∧ t.val y x c ≤ 255) (c : ℕ) :
    0 ≤ bilinearAt t yw xw c ∧ bilinearAt t yw xw c ≤ 255 := by
  have htop := convex_bound hx0 hx1 (hb yw.lower xw.lower c).1
    (hb yw.lower xw.lower c).2 (hb yw.lower xw.upper c).1 (hb yw.lower xw.upper c).2
  have hbot := convex_bound hx0 hx1 (hb yw.upper xw.lower c).1
    (hb yw.upper xw.lower c).2 (hb yw.upper xw.upper c).1 (hb yw.upper xw.upper c).2
  exact convex_bound hy0 hy1 htop.1 htop.2 hbot.1 hbot.2

/-- Bilinear resizing preserves the byte value range. -/
theorem resize_bilinear_val_bounds (t : Tensor3) (outH outW : ℕ)
    (hb : ∀ y x c, 0 ≤ t.val y x c ∧ t.val y x c ≤ 255) :
    ∀ y x c, 0 ≤ (resize_bilinear t outH outW).val y x c ∧
      (resize_bilinear t outH outW).val y x c ≤ 255 := by
  intro y x c
  obtain ⟨hy0, hy1⟩ := interpW_lerp_bounds t.height outH y
  obtain ⟨hx0, hx1⟩ := interpW_lerp_bounds t.width outW x
  exact bilinearAt_bounds t _ _ hy0 hy1 hx0 hx1 hb c

/-- A concrete 1-by-1 grayscale JPEG: one channel, sample value 100. -/
def grayJpeg : Jpeg :=
  { height := 1, width := 1, channels := 1, pix := fun _ _ _ => 100 }

/-- A concrete 1-by-1 RGB JPEG: three channels, sample value 10. -/
def rgbJpeg : Jpeg :=
  { height := 1, width := 1, channels := 3, pix := fun _ _ _ => 10 }

/-! ## Theorems for the claims -/

/-- C1: on any pair of identical non-empty label lists, `calculate_results`
returns the dict with accuracy 100, precision 1, recall 1 and f1 1. -/
theorem C1_identical_labels_perfect_metrics (l : List ℕ) (hl : l ≠ []) :
    calculate_results l l =
      Except.ok
        [("accuracy", PyFloat.num 100), ("precision", PyFloat.num 1),
          ("recall", PyFloat.num 1), ("f1", PyFloat.num 1)] := by
  rw [calculate_results, if_pos rfl, accuracy_score_self l hl,
    weightedAvg_self_one l hl _ fun c hc => precisionOf_self l c (List.mem_toFinset.mp hc),
    weightedAvg_self_one l hl _ fun c hc => recallOf_self l c (List.mem_toFinset.mp hc),
    weightedAvg_self_one l hl _ fun c hc => f1Of_self l c (List.mem_toFinset.mp hc)]
  norm_num [PyFloat.mul]

/-- C1 witness: the theorem applied to the concrete label list `[0, 1, 1]`. -/
theorem C1_identical_labels_perfect_metrics_witness :
    ([0, 1, 1] : List ℕ) ≠ [] ∧
      calculate_results [0, 1, 1] [0, 1, 1] =
        Except.ok
          [("accuracy", PyFloat.num 100), ("precision", PyFloat.num 1),
            ("recall", PyFloat.num 1), ("f1", PyFloat.num 1)] :=
  ⟨by decide, C1_identical_labels_perfect_metrics [0, 1, 1] (by decide)⟩

/-- C2, counterexample: the claim that no function of the repository invokes
another is false — `pred_and_plot` invokes `load_and_prep_image` at
line 69 of `src/main.py`. -/
theorem C2_counterexample :
    calls FuncName.predAndPlot FuncName.loadAndPrepImage = true := rfl

/-- C2, amended: the single intra-repository dependency is `pred_and_plot`
calling `load_and_prep_image`; no other function of the repository invokes
another. -/
theorem C2_amended_unique_internal_call :
    ∀ f g : FuncName,
      calls f g = true ↔ f = FuncName.predAndPlot ∧ g = FuncName.loadAndPrepImage := by
  decide

/-- C3, counterexample: on the prediction `[[0.5]]` — a value the underlying
`model.predict` library call returns successfully — and a well-formed class
list, `pred_and_plot` itself raises `TypeError` from its own branch logic
(`len` applied to the scalar `pred[0][0]` at line 75), so not every failure
of the repository is one produced and propagated by an underlying library
call. -/
theorem C3_counterexample :
    pred_and_plot_branch [[(1 : ℚ) / 2]] ["cat", "dog"] =
      Except.error PyErr.typeError := rfl

/-- C3, amended: no function of the repository catches, transforms, retries
or recovers from an error (the source has no `try`/`except`), but
`pred_and_plot` does raise a fault from its own wrapper code: whenever the
first prediction row has exactly one element, evaluating the `elif`
condition applies `len` to a scalar and raises `TypeError`. -/
theorem C3_amended_no_catch_but_wrapper_fault :
    (∀ f : FuncName, catchesErrors f = false) ∧
      ∀ (x : ℚ) (rest : List (List ℚ)) (class_names : List String),
        pred_and_plot_branch ([x] :: rest) class_names =
          Except.error PyErr.typeError :=
  ⟨fun _ => rfl, fun _ _ _ => rfl⟩

/-- C4: `unzip_data` opens the handle and, on the success path, extracts and
then explicitly closes it within the single call; when `extractall` raises,
the function aborts and the close statement never executes. -/
theorem C4_unzip_close_only_on_success :
    unzip_data_trace true = [ZEvent.opened, ZEvent.extracted, ZEvent.closed] ∧
      unzip_data_trace false = [ZEvent.opened, ZEvent.raised] ∧
      ZEvent.closed ∉ unzip_data_trace false := by
  refine ⟨rfl, rfl, ?_⟩
  decide

/-- C5, counterexample: the claim that every valid JPEG yields shape
(224, 224, 3) is false — `decode_jpeg` is called with the default
`channels=0`, which keeps the decoded channel count of the file, so the
valid 1-channel grayscale JPEG `grayJpeg` yields a (224, 224, 1) tensor. -/
theorem C5_counterexample :
    grayJpeg.valid ∧ (load_and_prep_image grayJpeg 224 true).channels ≠ 3 :=
  ⟨by decide, by decide⟩

/-- C5, amended: for every valid JPEG, `load_and_prep_image` with the
default `img_shape=224` and `normalize=True` returns a tensor of shape
(224, 224, C) — where C is the decoded channel count of the file, 1 for a
grayscale file and 3 for a color file (the decoder converts CMYK to RGB
and never outputs 4 channels) — whose values all lie in [0, 1]. -/
theorem C5_amended_shape_and_range (j : Jpeg) (hv : j.valid) :
    (load_and_prep_image j 224 true).height = 224 ∧
      (load_and_prep_image j 224 true).width = 224 ∧
      (load_and_prep_image j 224 true).channels = j.channels ∧
      ∀ y x c, 0 ≤ (load_and_prep_image j 224 true).val y x c ∧
        (load_and_prep_image j 224 true).val y x c ≤ 1 := by
  refine ⟨rfl, rfl, rfl, ?_⟩
  intro y x c
  have h := resize_bilinear_val_bounds (decode_jpeg j) 224 224
    (decode_jpeg_val_bounds j hv) y x c
  show 0 ≤ (resize_bilinear (decode_jpeg j) 224 224).val y x c / 255 ∧
    (resize_bilinear (decode_jpeg j) 224 224).val y x c / 255 ≤ 1
  constructor
  · exact div_nonneg h.1 (by norm_num)
  · rw [div_le_one (by norm_num)]
    exact h.2

/-- C5 witness: the amended theorem applied to the concrete RGB JPEG. -/
theorem C5_amended_shape_and_range_witness :
    rgbJpeg.valid ∧
      ((load_and_prep_image rgbJpeg 224 true).height = 224 ∧
        (load_and_prep_image rgbJpeg 224 true).width = 224 ∧
        (load_and_prep_image rgbJpeg 224 true).channels = rgbJpeg.channels ∧
        ∀ y x c, 0 ≤ (load_and_prep_image rgbJpeg 224 true).val y x c ∧
          (load_and_prep_image rgbJpeg 224 true).val y x c ≤ 1) :=
  ⟨by decide, C5_amended_shape_and_range rgbJpeg (by decide)⟩

/-- C6: `compare_history` concatenates, for each of the four metrics, the
original per-epoch values with the new ones, so each plotted sequence has
the summed length. -/
theorem C6_compare_history_concatenates :
    ∀ (oh nh : History) (initial_epochs : ℕ),
      (compare_history oh nh initial_epochs).total_acc =
          oh.accuracy ++ nh.accuracy ∧
        (compare_history oh nh initial_epochs).total_loss =
          oh.loss ++ nh.loss ∧
        (compare_history oh nh initial_epochs).total_val_acc =
          oh.val_accuracy ++ nh.val_accuracy ∧
        (compare_history oh nh initial_epochs).total_val_loss =
          oh.val_loss ++ nh.val_loss ∧
        (compare_history oh nh initial_epochs).total_acc.length =
          oh.accuracy.length + nh.accuracy.length ∧
        (compare_history oh nh initial_epochs).total_loss.length =
          oh.loss.length + nh.loss.length ∧
        (compare_history oh nh initial_epochs).total_val_acc.length =
          oh.val_accuracy.length + nh.val_accuracy.length ∧
        (compare_history oh nh initial_epochs).total_val_loss.length =
          oh.val_loss.length + nh.val_loss.length := by
  intro oh nh i
  simp [compare_history]

/-- C7: the file `confusion_matrix.png` is among the files written by
`make_confusion_matrix` exactly when `savefig` is true, and with the
default `savefig=False` no file is written at all. -/
theorem C7_savefig_iff_file_written :
    ∀ (y_true y_pred : List ℕ) (classes : Option (List String))
      (figsize : ℕ × ℕ) (text_size : ℕ) (norm savefig : Bool),
      ("confusion_matrix.png" ∈
          (make_confusion_matrix y_true y_pred classes figsize text_size norm
            savefig).files_written ↔ savefig = true) ∧
        (make_confusion_matrix y_true y_pred classes figsize text_size norm
          false).files_written = [] := by
  intro yt yp cls fs ts n s
  refine ⟨?_, rfl⟩
  cases s <;> simp [make_confusion_matrix]

/-- C8: whenever the prediction has shape (1, 1) — a sigmoid-style output —
`pred_and_plot` reaches the `elif` and faults with `TypeError` by taking
the length of the scalar `pred[0][0]`; the intended binary `else` branch is
never executed. -/
theorem C8_shape_1_1_faults_in_elif :
    ∀ (x : ℚ) (class_names : List String),
      pred_and_plot_branch [[x]] class_names = Except.error PyErr.typeError :=
  fun _ _ => rfl

/-- C9, counterexample: the claim says `calculate_results` always returns
an accuracy in [0, 100], but on the empty pair of label lists the code
returns the four keys with accuracy nan — `np.average` of an empty score
array — which is not a number in [0, 100] (the three weighted metrics fall
back to the `zero_division` value 0). -/
theorem C9_counterexample :
    calculate_results [] [] =
      Except.ok
        [("accuracy", PyFloat.nan), ("precision", PyFloat.num 0),
          ("recall", PyFloat.num 0), ("f1", PyFloat.num 0)] := by
  simp [calculate_results, accuracy_score, PyFloat.mul, weightedAvg, labelSet]

/-- C9, amended: `calculate_results` on same-length label lists returns a
dict with exactly the four keys accuracy, precision, recall, f1, in that
order; when `y_true` is non-empty, accuracy is a finite percentage in
[0, 100] and the other three are finite unscaled fractions in [0, 1] (on
empty input the accuracy is nan instead). -/
theorem C9_amended_keys_and_ranges (y_true y_pred : List ℕ)
    (hlen : y_true.length = y_pred.length) (hne : y_true ≠ []) :
    ∃ a p r f,
      calculate_results y_true y_pred =
          Except.ok [("accuracy", PyFloat.num a), ("precision", PyFloat.num p),
            ("recall", PyFloat.num r), ("f1", PyFloat.num f)] ∧
        0 ≤ a ∧ a ≤ 100 ∧ 0 ≤ p ∧ p ≤ 1 ∧ 0 ≤ r ∧ r ≤ 1 ∧ 0 ≤ f ∧ f ≤ 1 := by
  have h0 : ¬y_true.length = 0 := fun h => hne (List.length_eq_zero.mp h)
  obtain ⟨ha0, ha1⟩ := accuracyQ_bounds y_true y_pred hne
  obtain ⟨hp0, hp1⟩ := weightedAvg_bounds y_true y_pred hne _
    fun c => precisionOf_bounds y_true y_pred hlen c
  obtain ⟨hr0, hr1⟩ := weightedAvg_bounds y_true y_pred hne _
    fun c => recallOf_bounds y_true y_pred hlen c
  obtain ⟨hf0, hf1⟩ := weightedAvg_bounds y_true y_pred hne _
    fun c => f1Of_bounds y_true y_pred hlen c
  refine ⟨accuracyQ y_true y_pred * 100,
    weightedAvg y_true y_pred (precisionOf y_true y_pred),
    weightedAvg y_true y_pred (recallOf y_true y_pred),
    weightedAvg y_true y_pred (f1Of y_true y_pred),
    ?_, by linarith, by linarith, hp0, hp1, hr0, hr1, hf0, hf1⟩
  rw [calculate_results, if_pos hlen, accuracy_score, if_neg h0]
  rfl

/-- C9 witness: the amended theorem applied to the concrete lists `[0, 1]`
and `[1, 1]`. -/
theorem C9_amended_keys_and_ranges_witness :
    ([0, 1] : List ℕ).length = ([1, 1] : List ℕ).length ∧
      ([0, 1] : List ℕ) ≠ [] ∧
      ∃ a p r f,
        calculate_results [0, 1] [1, 1] =
            Except.ok [("accuracy", PyFloat.num a), ("precision", PyFloat.num p),
              ("recall", PyFloat.num r), ("f1", PyFloat.num f)] ∧
          0 ≤ a ∧ a ≤ 100 ∧ 0 ≤ p ∧ p ≤ 1 ∧ 0 ≤ r ∧ r ≤ 1 ∧ 0 ≤ f ∧ f ≤ 1 :=
  ⟨rfl, by decide, C9_amended_keys_and_ranges [0, 1] [1, 1] rfl (by decide)⟩

/-- C10: the row-normalised matrix `cm_norm` computed at line 50 is dead —
`make_confusion_matrix` produces exactly the same figure, display and file
output as the otherwise equal function with the `cm_norm` computation
omitted, for all inputs (the rational embedding of the computation is
total, matching numpy, which warns but does not fault on a zero row). -/
theorem C10_cm_norm_unused :
    ∀ (y_true y_pred : List ℕ) (classes : Option (List String))
      (figsize : ℕ × ℕ) (text_size : ℕ) (norm savefig : Bool),
      make_confusion_matrix y_true y_pred classes figsize text_size norm savefig =
        make_confusion_matrix_no_norm y_true y_pred classes figsize text_size norm
          savefig :=
  fun _ _ _ _ _ _ _ => rfl

end TfHelper
